import Mathlib

/-!
Verification of the Moddo feedback-classification and printability-analysis
logic.

Text is modelled as a list of Unicode code points (`List Nat`); the helper
`str` converts a Lean string literal to that representation.  JavaScript
`String.prototype.toLowerCase` is modelled by ASCII case folding (`lowerCp`),
which is exact for every keyword and message the code uses.  JavaScript
`String.prototype.includes` is modelled by `includes`.  JavaScript numbers
are modelled by `ℚ`: every threshold comparison in the code
(`< 1`, `> 1000`, `> 50000`, `< 100`, `> 100000`, `> 10485760`) is exact on
the floating-point inputs involved, so `ℚ` is a faithful model of the float
comparisons.

Sources embedded:
  - `extractFeedbackParameters` and `determineFeedbackType` from
    src/app/api/projects/[id]/feedback/route.ts
  - `analyzePrintability` (Configuration A) and
    `STLConverter.validateForPrinting` (Configuration B) from
    src/unnamed/part_001
-/

/-- Code points of a string literal. -/
def str (s : String) : List Nat := s.data.map Char.toNat

/-- ASCII case folding of one code point (model of JS toLowerCase on the
ASCII range, which covers all keywords used by the code). -/
def lowerCp (n : Nat) : Nat := if 65 ≤ n ∧ n ≤ 90 then n + 32 else n

/-- Model of `text.toLowerCase()`. -/
def toLowerCps (t : List Nat) : List Nat := t.map lowerCp

/-- Does the first list start with the second one? -/
def startsWith : List Nat → List Nat → Bool
  | _, [] => true
  | [], _ :: _ => false
  | a :: as, b :: bs => (a == b) && startsWith as bs

/-- Model of `haystack.includes(needle)`. -/
def includes : List Nat → List Nat → Bool
  | [], needle => startsWith [] needle
  | h :: t, needle => startsWith (h :: t) needle || includes t needle

/-- Feedback type returned by `determineFeedbackType`. -/
inductive FeedbackType where
  | approval
  | refinementRequest
  | comment
deriving DecidableEq, Repr

/-- Values of `parameters.sizeAdjustment`. -/
inductive SizeAdjustment where
  | larger
  | smaller
  | wider
  | taller
deriving DecidableEq, Repr

/-- Values of `parameters.materialChange` (MaterialType in src/lib/types). -/
inductive MaterialType where
  | TPU
  | PLA
  | PETG
  | ABS
deriving DecidableEq, Repr

/-- The extracted-parameters object; each field is optional, mirroring the
TypeScript object whose keys are conditionally assigned. -/
structure FeedbackParameters where
  sizeAdjustment : Option SizeAdjustment
  materialChange : Option MaterialType
  functionalChanges : Option (List (List Nat))
deriving DecidableEq, Repr

/-- Condition of the approval branch of `determineFeedbackType`
(route.ts lines 94-95). -/
def approvalMatch (lowerText : List Nat) : Bool :=
  includes lowerText (str "perfect") || includes lowerText (str "looks good") ||
  includes lowerText (str "approve") || includes lowerText (str "ready")

/-- Condition of the refinement branch of `determineFeedbackType`
(route.ts lines 100-103). -/
def refinementMatch (lowerText : List Nat) : Bool :=
  includes lowerText (str "change") || includes lowerText (str "adjust") ||
  includes lowerText (str "make it") || includes lowerText (str "need") ||
  includes lowerText (str "should be") || includes lowerText (str "add") ||
  includes lowerText (str "remove")

/-- `determineFeedbackType` (route.ts lines 90-109). -/
def determineFeedbackType (feedbackText : List Nat) : FeedbackType :=
  let lowerText := toLowerCps feedbackText
  if approvalMatch lowerText then .approval
  else if refinementMatch lowerText then .refinementRequest
  else .comment

/-- Condition of the first size branch (route.ts line 43). -/
def sizeLargerMatch (lowerText : List Nat) : Bool :=
  includes lowerText (str "bigger") || includes lowerText (str "larger") ||
  includes lowerText (str "increase size")

/-- Condition of the second size branch (route.ts line 45). -/
def sizeSmallerMatch (lowerText : List Nat) : Bool :=
  includes lowerText (str "smaller") || includes lowerText (str "reduce size") ||
  includes lowerText (str "compact")

/-- Condition of the third size branch (route.ts line 47). -/
def sizeWiderMatch (lowerText : List Nat) : Bool :=
  includes lowerText (str "wider") || includes lowerText (str "broader")

/-- Condition of the fourth size branch (route.ts line 49). -/
def sizeTallerMatch (lowerText : List Nat) : Bool :=
  includes lowerText (str "taller") || includes lowerText (str "higher")

/-- The size-adjustment cascade of `extractFeedbackParameters`
(route.ts lines 43-51). -/
def sizeAdjustmentOf (lowerText : List Nat) : Option SizeAdjustment :=
  if sizeLargerMatch lowerText then some .larger
  else if sizeSmallerMatch lowerText then some .smaller
  else if sizeWiderMatch lowerText then some .wider
  else if sizeTallerMatch lowerText then some .taller
  else none

/-- Condition of the first material branch (route.ts line 54). -/
def matTpuMatch (lowerText : List Nat) : Bool :=
  includes lowerText (str "flexible") || includes lowerText (str "rubbery") ||
  includes lowerText (str "tpu")

/-- Condition of the second material branch (route.ts line 56). -/
def matPlaMatch (lowerText : List Nat) : Bool :=
  includes lowerText (str "rigid") || includes lowerText (str "hard") ||
  includes lowerText (str "pla")

/-- Condition of the third material branch (route.ts line 58). -/
def matPetgMatch (lowerText : List Nat) : Bool :=
  includes lowerText (str "durable") || includes lowerText (str "strong") ||
  includes lowerText (str "petg")

/-- Condition of the fourth material branch (route.ts line 60). -/
def matAbsMatch (lowerText : List Nat) : Bool :=
  includes lowerText (str "abs")

/-- The material-change cascade of `extractFeedbackParameters`
(route.ts lines 54-62). -/
def materialChangeOf (lowerText : List Nat) : Option MaterialType :=
  if matTpuMatch lowerText then some .TPU
  else if matPlaMatch lowerText then some .PLA
  else if matPetgMatch lowerText then some .PETG
  else if matAbsMatch lowerText then some .ABS
  else none

/-- The functional-changes accumulation of `extractFeedbackParameters`
(route.ts lines 65-77): four independent checks, pushed in order. -/
def functionalChangesOf (lowerText : List Nat) : List (List Nat) :=
  (if includes lowerText (str "hole") || includes lowerText (str "opening") then
    [str "Add holes or openings"] else []) ++
  (if includes lowerText (str "grip") || includes lowerText (str "texture") then
    [str "Add grip texture"] else []) ++
  (if includes lowerText (str "compartment") || includes lowerText (str "section") then
    [str "Add compartments"] else []) ++
  (if includes lowerText (str "smooth") || includes lowerText (str "rounded") then
    [str "Smooth edges"] else [])

/-- Whether any size keyword group matched. -/
def sizeMatch (lowerText : List Nat) : Bool :=
  sizeLargerMatch lowerText || sizeSmallerMatch lowerText ||
  sizeWiderMatch lowerText || sizeTallerMatch lowerText

/-- Whether any material keyword group matched. -/
def matMatch (lowerText : List Nat) : Bool :=
  matTpuMatch lowerText || matPlaMatch lowerText ||
  matPetgMatch lowerText || matAbsMatch lowerText

/-- Whether any functional keyword group matched. -/
def funcMatch (lowerText : List Nat) : Bool :=
  (includes lowerText (str "hole") || includes lowerText (str "opening")) ||
  (includes lowerText (str "grip") || includes lowerText (str "texture")) ||
  (includes lowerText (str "compartment") || includes lowerText (str "section")) ||
  (includes lowerText (str "smooth") || includes lowerText (str "rounded"))

/-- The `functionalChanges` key of the parameter object: assigned only when
the accumulated list is non-empty (route.ts lines 79-81). -/
def functionalChangesOptOf (lowerText : List Nat) : Option (List (List Nat)) :=
  if (functionalChangesOf lowerText).length > 0 then
    some (functionalChangesOf lowerText)
  else none

/-- `extractFeedbackParameters` (route.ts lines 38-84).  The result is
`none` exactly when the object would have no keys
(`Object.keys(parameters).length > 0` check at line 83). -/
def extractFeedbackParameters (feedbackText : List Nat) : Option FeedbackParameters :=
  let lowerText := toLowerCps feedbackText
  if (sizeAdjustmentOf lowerText).isSome || (materialChangeOf lowerText).isSome ||
      (functionalChangesOptOf lowerText).isSome then
    some ⟨sizeAdjustmentOf lowerText, materialChangeOf lowerText,
          functionalChangesOptOf lowerText⟩
  else none

/-- The printability verdict shape shared by both analyzers
(ModelData printabilityCheck). -/
structure PrintabilityCheck where
  passed : Bool
  issues : List (List Nat)
  recommendations : List (List Nat)
deriving DecidableEq, Repr

/-- Input record of `analyzePrintability` (part_001 lines 135-139). -/
structure ModelStats where
  vertices : ℚ
  faces : ℚ
  fileSize : ℚ

/-- `analyzePrintability` (part_001 lines 136-169), Configuration A.
The file-size threshold 10 * 1024 * 1024 is written as the literal
10485760. -/
def analyzePrintability (modelData : ModelStats) : PrintabilityCheck :=
  let issues :=
    (if modelData.vertices > 100000 then
      [str "High vertex count may slow printing"] else []) ++
    (if modelData.fileSize > 10485760 then
      [str "Large file size may indicate excessive detail"] else [])
  let recommendations :=
    (if modelData.vertices > 100000 then
      [str "Consider reducing model complexity"] else []) ++
    (if modelData.fileSize > 10485760 then
      [str "Optimize mesh for 3D printing"] else [])
  let recommendations :=
    if issues.length == 0 then
      recommendations ++
        [str "Model appears print-ready",
         str "Recommended layer height: 0.2mm",
         str "Supports may be needed for overhangs"]
    else recommendations
  { passed := issues.length == 0, issues := issues, recommendations := recommendations }

/-- Input record of `STLConverter.validateForPrinting`
(part_001 lines 530-534). -/
structure MeshData where
  vertices : ℚ
  faces : ℚ
  volume : ℚ

/-- `STLConverter.validateForPrinting` (part_001 lines 530-574),
Configuration B. -/
def validateForPrinting (meshData : MeshData) : PrintabilityCheck :=
  let issues :=
    (if meshData.volume < 1 then
      [str "Model may be too small for reliable printing"] else []) ++
    (if meshData.volume > 1000 then
      [str "Model may be too large for some 3D printers"] else []) ++
    (if meshData.faces > 50000 then
      [str "High face count may cause slicer performance issues"] else []) ++
    (if meshData.faces < 100 then
      [str "Low face count may result in blocky appearance"] else [])
  let recommendations :=
    (if meshData.volume < 1 then
      [str "Consider scaling up the model"] else []) ++
    (if meshData.volume > 1000 then
      [str "Consider scaling down or printing in parts"] else []) ++
    (if meshData.faces > 50000 then
      [str "Consider mesh decimation to reduce complexity"] else []) ++
    (if meshData.faces < 100 then
      [str "Consider increasing mesh resolution"] else [])
  let recommendations :=
    if issues.length == 0 then
      recommendations ++
        [str "Model appears optimized for 3D printing",
         str "Recommended infill: 15-20%",
         str "Recommended layer height: 0.2mm",
         str "Consider orientation to minimize supports"]
    else recommendations
  { passed := issues.length == 0, issues := issues, recommendations := recommendations }

/-- One rule of the generic engine described by the specification:
a predicate on the input stats together with an issue text and a
recommendation text. -/
structure PrintRule (α : Type) where
  pred : α → Bool
  issue : List Nat
  recommendation : List Nat

/-- Generic rule engine following the words of the specification, section
4.2: a list of (predicate, issue, recommendation) rules evaluated
independently in declaration order, producing the triggered issues and
recommendations; when no issue triggered, a fixed default recommendation
list replaces the per-rule recommendations, and passed is derived as
issues-empty. -/
def runRulesSpec {α : Type} (rules : List (PrintRule α)) (defaults : List (List Nat))
    (a : α) : PrintabilityCheck :=
  let triggered := rules.filter (fun r => r.pred a)
  let issues := triggered.map (fun r => r.issue)
  let recommendations :=
    if issues.isEmpty then defaults else triggered.map (fun r => r.recommendation)
  { passed := issues.isEmpty, issues := issues, recommendations := recommendations }

/-- Configuration A rules, as the specification lists them. -/
def configA : List (PrintRule ModelStats) :=
  [⟨fun m => decide (m.vertices > 100000),
    str "High vertex count may slow printing",
    str "Consider reducing model complexity"⟩,
   ⟨fun m => decide (m.fileSize > 10485760),
    str "Large file size may indicate excessive detail",
    str "Optimize mesh for 3D printing"⟩]

/-- Configuration A defaults, as the specification lists them. -/
def defaultsA : List (List Nat) :=
  [str "Model appears print-ready",
   str "Recommended layer height: 0.2mm",
   str "Supports may be needed for overhangs"]

/-- Configuration B rules, as the specification lists them. -/
def configB : List (PrintRule MeshData) :=
  [⟨fun m => decide (m.volume < 1),
    str "Model may be too small for reliable printing",
    str "Consider scaling up the model"⟩,
   ⟨fun m => decide (m.volume > 1000),
    str "Model may be too large for some 3D printers",
    str "Consider scaling down or printing in parts"⟩,
   ⟨fun m => decide (m.faces > 50000),
    str "High face count may cause slicer performance issues",
    str "Consider mesh decimation to reduce complexity"⟩,
   ⟨fun m => decide (m.faces < 100),
    str "Low face count may result in blocky appearance",
    str "Consider increasing mesh resolution"⟩]

/-- Configuration B defaults, as the specification lists them. -/
def defaultsB : List (List Nat) :=
  [str "Model appears optimized for 3D printing",
   str "Recommended infill: 15-20%",
   str "Recommended layer height: 0.2mm",
   str "Consider orientation to minimize supports"]

/-- The recommendation text belonging to each issue text, across both
analyzers (each rule contributes its issue and its recommendation as a
pair). -/
def recFor (issue : List Nat) : List Nat :=
  if issue == str "High vertex count may slow printing" then
    str "Consider reducing model complexity"
  else if issue == str "Large file size may indicate excessive detail" then
    str "Optimize mesh for 3D printing"
  else if issue == str "Model may be too small for reliable printing" then
    str "Consider scaling up the model"
  else if issue == str "Model may be too large for some 3D printers" then
    str "Consider scaling down or printing in parts"
  else if issue == str "High face count may cause slicer performance issues" then
    str "Consider mesh decimation to reduce complexity"
  else if issue == str "Low face count may result in blocky appearance" then
    str "Consider increasing mesh resolution"
  else []

/-- The rational number one half, the volume of the concrete example input
(0.5 in the specification). -/
def half : ℚ := ⟨1, 2, by decide, Nat.coprime_one_left 2⟩

/-- ASCII case folding is idempotent. -/
theorem lowerCp_idem (n : Nat) : lowerCp (lowerCp n) = lowerCp n := by
  simp only [lowerCp]
  by_cases h : 65 ≤ n ∧ n ≤ 90
  · simp only [if_pos h]
    exact if_neg (by omega)
  · simp only [if_neg h]

/-- Lowercasing a text twice is the same as lowercasing it once. -/
theorem toLowerCps_idem (t : List Nat) : toLowerCps (toLowerCps t) = toLowerCps t := by
  simp only [toLowerCps, List.map_map]
  exact List.map_congr_left (fun n _ => lowerCp_idem n)

/-- The size cascade yields a value exactly when some size group matched. -/
theorem sizeAdjustmentOf_isSome (lt : List Nat) :
    (sizeAdjustmentOf lt).isSome = sizeMatch lt := by
  unfold sizeAdjustmentOf sizeMatch
  cases h1 : sizeLargerMatch lt <;> cases h2 : sizeSmallerMatch lt <;>
    cases h3 : sizeWiderMatch lt <;> cases h4 : sizeTallerMatch lt <;> simp

/-- The material cascade yields a value exactly when some material group
matched. -/
theorem materialChangeOf_isSome (lt : List Nat) :
    (materialChangeOf lt).isSome = matMatch lt := by
  unfold materialChangeOf matMatch
  cases h1 : matTpuMatch lt <;> cases h2 : matPlaMatch lt <;>
    cases h3 : matPetgMatch lt <;> cases h4 : matAbsMatch lt <;> simp

/-- The accumulated functional-changes list is empty exactly when no
functional group matched. -/
theorem functionalChangesOf_eq_nil_iff (lt : List Nat) :
    functionalChangesOf lt = [] ↔ funcMatch lt = false := by
  unfold functionalChangesOf funcMatch
  cases h1 : includes lt (str "hole") || includes lt (str "opening") <;>
    cases h2 : includes lt (str "grip") || includes lt (str "texture") <;>
    cases h3 : includes lt (str "compartment") || includes lt (str "section") <;>
    cases h4 : includes lt (str "smooth") || includes lt (str "rounded") <;> simp

/-- The `functionalChanges` key is present exactly when some functional
group matched. -/
theorem functionalChangesOptOf_isSome (lt : List Nat) :
    (functionalChangesOptOf lt).isSome = funcMatch lt := by
  unfold functionalChangesOptOf
  by_cases h : (functionalChangesOf lt).length > 0
  · have hne : functionalChangesOf lt ≠ [] := by
      intro he
      rw [he] at h
      simp at h
    have : funcMatch lt ≠ false := fun hf =>
      hne ((functionalChangesOf_eq_nil_iff lt).mpr hf)
    simp [if_pos h, (Bool.not_eq_false _).mp this]
  · have he : functionalChangesOf lt = [] := by
      cases hc : functionalChangesOf lt with
      | nil => rfl
      | cons a l => rw [hc] at h; simp at h
    simp [if_neg h, ((functionalChangesOf_eq_nil_iff lt).mp he)]

/-- The `functionalChanges` key is absent exactly when no functional group
matched. -/
theorem functionalChangesOptOf_eq_none_iff (lt : List Nat) :
    functionalChangesOptOf lt = none ↔ funcMatch lt = false := by
  rw [← functionalChangesOptOf_isSome]
  cases h : functionalChangesOptOf lt <;> simp

/-- The `functionalChanges` key is never the empty list. -/
theorem functionalChangesOptOf_ne_some_nil (lt : List Nat) :
    functionalChangesOptOf lt ≠ some [] := by
  unfold functionalChangesOptOf
  split
  · next h =>
    intro hc
    rw [Option.some.inj hc] at h
    simp at h
  · exact fun hc => Option.noConfusion hc

/-- Any parameter object produced by `extractFeedbackParameters` is made of
the three cascade results. -/
theorem extract_eq_some_shape (text : List Nat) (p : FeedbackParameters)
    (h : extractFeedbackParameters text = some p) :
    p = ⟨sizeAdjustmentOf (toLowerCps text), materialChangeOf (toLowerCps text),
         functionalChangesOptOf (toLowerCps text)⟩ := by
  simp only [extractFeedbackParameters] at h
  split at h
  · exact (Option.some.inj h).symm
  · exact Option.noConfusion h

/-- `extractFeedbackParameters` returns the absent result exactly when no
size, material or functional group matched. -/
theorem extract_eq_none_iff (text : List Nat) :
    extractFeedbackParameters text = none ↔
      sizeMatch (toLowerCps text) = false ∧ matMatch (toLowerCps text) = false ∧
        funcMatch (toLowerCps text) = false := by
  simp only [extractFeedbackParameters]
  rw [show ((sizeAdjustmentOf (toLowerCps text)).isSome = sizeMatch (toLowerCps text))
        from sizeAdjustmentOf_isSome _,
      show ((materialChangeOf (toLowerCps text)).isSome = matMatch (toLowerCps text))
        from materialChangeOf_isSome _,
      show ((functionalChangesOptOf (toLowerCps text)).isSome = funcMatch (toLowerCps text))
        from functionalChangesOptOf_isSome _]
  cases hS : sizeMatch (toLowerCps text) <;> cases hM : matMatch (toLowerCps text) <;>
    cases hF : funcMatch (toLowerCps text) <;> simp


/-- Configuration A is an instance of the generic rule engine of the
specification. -/
theorem analyzePrintability_eq_runRules (m : ModelStats) :
    analyzePrintability m = runRulesSpec configA defaultsA m := by
  by_cases h1 : m.vertices > (100000 : ℚ) <;>
    by_cases h2 : m.fileSize > (10485760 : ℚ) <;>
    simp [analyzePrintability, runRulesSpec, configA, defaultsA, h1, h2]

/-- Configuration B is an instance of the generic rule engine of the
specification. -/
theorem validateForPrinting_eq_runRules (m : MeshData) :
    validateForPrinting m = runRulesSpec configB defaultsB m := by
  by_cases h1 : m.volume < (1 : ℚ) <;> by_cases h2 : m.volume > (1000 : ℚ) <;>
    by_cases h3 : m.faces > (50000 : ℚ) <;> by_cases h4 : m.faces < (100 : ℚ) <;>
    simp [validateForPrinting, runRulesSpec, configB, defaultsB, h1, h2, h3, h4]

/-- In Configuration A the recommendations are never empty and, when issues
are present, pair up with the issues rule by rule. -/
theorem analyzePrintability_paired (a : ModelStats) :
    (analyzePrintability a).recommendations ≠ [] ∧
    ((analyzePrintability a).issues ≠ [] →
      (analyzePrintability a).recommendations =
        (analyzePrintability a).issues.map recFor) := by
  by_cases h1 : a.vertices > (100000 : ℚ) <;>
    by_cases h2 : a.fileSize > (10485760 : ℚ) <;>
    simp [analyzePrintability, h1, h2] <;> decide

/-- In Configuration B the recommendations are never empty and, when issues
are present, pair up with the issues rule by rule. -/
theorem validateForPrinting_paired (b : MeshData) :
    (validateForPrinting b).recommendations ≠ [] ∧
    ((validateForPrinting b).issues ≠ [] →
      (validateForPrinting b).recommendations =
        (validateForPrinting b).issues.map recFor) := by
  by_cases h1 : b.volume < (1 : ℚ) <;> by_cases h2 : b.volume > (1000 : ℚ) <;>
    by_cases h3 : b.faces > (50000 : ℚ) <;> by_cases h4 : b.faces < (100 : ℚ) <;>
    simp [validateForPrinting, h1, h2, h3, h4] <;> decide

/-- C1: for every input text containing, case-insensitively, at least one
approval keyword (perfect, looks good, approve, ready), classify returns
approval, even when refinement keywords are also present, because the
approval check is evaluated strictly before the refinement check. -/
theorem classify_approval_priority (text : List Nat)
    (h : includes (toLowerCps text) (str "perfect") = true ∨
         includes (toLowerCps text) (str "looks good") = true ∨
         includes (toLowerCps text) (str "approve") = true ∨
         includes (toLowerCps text) (str "ready") = true) :
    determineFeedbackType text = .approval := by
  have ha : approvalMatch (toLowerCps text) = true := by
    unfold approvalMatch
    rcases h with h | h | h | h <;> simp [h]
  simp [determineFeedbackType, ha]

/-- Witness for C1 at a text containing both an approval keyword and a
refinement keyword. -/
theorem classify_approval_priority_witness :
    refinementMatch (toLowerCps (str "perfect, but please add a hole")) = true ∧
    determineFeedbackType (str "perfect, but please add a hole") = .approval :=
  ⟨by decide, classify_approval_priority (str "perfect, but please add a hole")
    (Or.inl (by decide))⟩

/-- C2: the post-STL-conversion printability check (Configuration B)
evaluates its four rules independently in declaration order, exactly as the
generic rule engine of the specification does; when no rule triggers, the
issues list is empty and the recommendations are exactly the four default
entries; and on the concrete input with vertices 5000, faces 200 and
volume one half, the verdict fails with exactly the too-small issue. -/
theorem validateForPrinting_spec (m : MeshData) :
    validateForPrinting m = runRulesSpec configB defaultsB m ∧
    (¬ m.volume < 1 → ¬ m.volume > 1000 → ¬ m.faces > 50000 → ¬ m.faces < 100 →
      (validateForPrinting m).issues = [] ∧
      (validateForPrinting m).recommendations = defaultsB) ∧
    (validateForPrinting ⟨5000, 200, half⟩).passed = false ∧
    (validateForPrinting ⟨5000, 200, half⟩).issues =
      [str "Model may be too small for reliable printing"] := by
  refine ⟨validateForPrinting_eq_runRules m, ?_, by decide, by decide⟩
  intro h1 h2 h3 h4
  simp [validateForPrinting, defaultsB, h1, h2, h3, h4]

/-- Witness for C2 at an input that triggers no rule. -/
theorem validateForPrinting_spec_witness :
    (validateForPrinting ⟨5000, 200, 500⟩).issues = [] ∧
    (validateForPrinting ⟨5000, 200, 500⟩).recommendations = defaultsB :=
  (validateForPrinting_spec ⟨5000, 200, 500⟩).2.1
    (by decide) (by decide) (by decide) (by decide)

/-- C3: the post-3D-generation printability check (Configuration A) matches
the generic rule engine of the specification; it passes exactly when
vertices are at most 100000 and the file size is at most 10485760 bytes;
and when neither rule triggers the recommendations are exactly the three
default entries and the issues are empty. -/
theorem analyzePrintability_spec (m : ModelStats) :
    analyzePrintability m = runRulesSpec configA defaultsA m ∧
    ((analyzePrintability m).passed = true ↔
      m.vertices ≤ 100000 ∧ m.fileSize ≤ 10485760) ∧
    (¬ m.vertices > 100000 → ¬ m.fileSize > 10485760 →
      (analyzePrintability m).issues = [] ∧
      (analyzePrintability m).recommendations = defaultsA) := by
  refine ⟨analyzePrintability_eq_runRules m, ?_, ?_⟩
  · by_cases h1 : m.vertices > (100000 : ℚ) <;>
      by_cases h2 : m.fileSize > (10485760 : ℚ) <;>
      simp [analyzePrintability, h1, h2, ← not_lt]
  · intro h1 h2
    simp [analyzePrintability, defaultsA, h1, h2]

/-- Witness for C3 at an input that triggers no rule. -/
theorem analyzePrintability_spec_witness :
    (analyzePrintability ⟨50000, 0, 1000000⟩).issues = [] ∧
    (analyzePrintability ⟨50000, 0, 1000000⟩).recommendations = defaultsA :=
  (analyzePrintability_spec ⟨50000, 0, 1000000⟩).2.2 (by decide) (by decide)

/-- C4: both printability analyzers are total functions whose verdict
satisfies passed = true exactly when the issues list is empty, for any
rational inputs, including zero and negative values; passed is always
derived from the issues list. -/
theorem printability_passed_iff_no_issues (a : ModelStats) (b : MeshData) :
    ((analyzePrintability a).passed = true ↔ (analyzePrintability a).issues = []) ∧
    ((validateForPrinting b).passed = true ↔ (validateForPrinting b).issues = []) := by
  constructor
  · rw [show (analyzePrintability a).passed =
        ((analyzePrintability a).issues.length == 0) from rfl]
    simp
  · rw [show (validateForPrinting b).passed =
        ((validateForPrinting b).issues.length == 0) from rfl]
    simp

/-- C5: extractParameters returns the absent result exactly when no size,
material or functional keyword group matched; it never returns an empty
parameter object; and the functionalChanges field is absent, never an
empty list, whenever no functional keyword matched. -/
theorem extractParameters_absent_iff (text : List Nat) :
    (extractFeedbackParameters text = none ↔
      sizeMatch (toLowerCps text) = false ∧ matMatch (toLowerCps text) = false ∧
        funcMatch (toLowerCps text) = false) ∧
    (∀ p, extractFeedbackParameters text = some p → p ≠ ⟨none, none, none⟩) ∧
    (∀ p, extractFeedbackParameters text = some p →
      funcMatch (toLowerCps text) = false → p.functionalChanges = none) ∧
    (∀ p, extractFeedbackParameters text = some p → p.functionalChanges ≠ some []) := by
  refine ⟨extract_eq_none_iff text, ?_, ?_, ?_⟩
  · intro p h hc
    have hshape := extract_eq_some_shape text p h
    have he : (⟨sizeAdjustmentOf (toLowerCps text), materialChangeOf (toLowerCps text),
        functionalChangesOptOf (toLowerCps text)⟩ : FeedbackParameters) =
        (⟨none, none, none⟩ : FeedbackParameters) := hshape.symm.trans hc
    have h1 : sizeAdjustmentOf (toLowerCps text) = none :=
      congrArg FeedbackParameters.sizeAdjustment he
    have h2 : materialChangeOf (toLowerCps text) = none :=
      congrArg FeedbackParameters.materialChange he
    have h3 : functionalChangesOptOf (toLowerCps text) = none :=
      congrArg FeedbackParameters.functionalChanges he
    have hnone : extractFeedbackParameters text = none := by
      apply (extract_eq_none_iff text).mpr
      refine ⟨?_, ?_, ?_⟩
      · rw [← sizeAdjustmentOf_isSome, h1]; rfl
      · rw [← materialChangeOf_isSome, h2]; rfl
      · rw [← functionalChangesOptOf_isSome, h3]; rfl
    rw [hnone] at h
    exact Option.noConfusion h
  · intro p h hfm
    have hshape := extract_eq_some_shape text p h
    rw [hshape]
    show functionalChangesOptOf (toLowerCps text) = none
    exact (functionalChangesOptOf_eq_none_iff (toLowerCps text)).mpr hfm
  · intro p h
    have hshape := extract_eq_some_shape text p h
    rw [hshape]
    show functionalChangesOptOf (toLowerCps text) ≠ some []
    exact functionalChangesOptOf_ne_some_nil (toLowerCps text)

/-- Witness for C5: a text with no keyword yields the absent result. -/
theorem extractParameters_absent_iff_witness :
    extractFeedbackParameters (str "this is fine") = none :=
  ((extractParameters_absent_iff (str "this is fine")).1).mpr (by decide)

/-- C6: extractParameters records at most one size adjustment and at most
one material change, each chosen first-match-wins over the fixed group
orders (size: larger, smaller, wider, taller; material: TPU, PLA, PETG,
ABS); the recorded fields are exactly the two cascades, and text
containing both bigger and wider yields the larger adjustment. -/
theorem extractParameters_first_match (text : List Nat) :
    (∀ p, extractFeedbackParameters text = some p →
      p.sizeAdjustment = sizeAdjustmentOf (toLowerCps text) ∧
      p.materialChange = materialChangeOf (toLowerCps text)) ∧
    (sizeLargerMatch (toLowerCps text) = true →
      sizeAdjustmentOf (toLowerCps text) = some .larger) ∧
    (sizeLargerMatch (toLowerCps text) = false →
      sizeSmallerMatch (toLowerCps text) = true →
      sizeAdjustmentOf (toLowerCps text) = some .smaller) ∧
    (sizeLargerMatch (toLowerCps text) = false →
      sizeSmallerMatch (toLowerCps text) = false →
      sizeWiderMatch (toLowerCps text) = true →
      sizeAdjustmentOf (toLowerCps text) = some .wider) ∧
    (sizeLargerMatch (toLowerCps text) = false →
      sizeSmallerMatch (toLowerCps text) = false →
      sizeWiderMatch (toLowerCps text) = false →
      sizeTallerMatch (toLowerCps text) = true →
      sizeAdjustmentOf (toLowerCps text) = some .taller) ∧
    (matTpuMatch (toLowerCps text) = true →
      materialChangeOf (toLowerCps text) = some .TPU) ∧
    (matTpuMatch (toLowerCps text) = false →
      matPlaMatch (toLowerCps text) = true →
      materialChangeOf (toLowerCps text) = some .PLA) ∧
    (matTpuMatch (toLowerCps text) = false →
      matPlaMatch (toLowerCps text) = false →
      matPetgMatch (toLowerCps text) = true →
      materialChangeOf (toLowerCps text) = some .PETG) ∧
    (matTpuMatch (toLowerCps text) = false →
      matPlaMatch (toLowerCps text) = false →
      matPetgMatch (toLowerCps text) = false →
      matAbsMatch (toLowerCps text) = true →
      materialChangeOf (toLowerCps text) = some .ABS) ∧
    (includes (toLowerCps text) (str "bigger") = true →
      includes (toLowerCps text) (str "wider") = true →
      ∃ p, extractFeedbackParameters text = some p ∧
        p.sizeAdjustment = some SizeAdjustment.larger) := by
  refine ⟨?_, ?_, ?_, ?_, ?_, ?_, ?_, ?_, ?_, ?_⟩
  · intro p h
    rw [extract_eq_some_shape text p h]
    exact ⟨rfl, rfl⟩
  · intro h1; simp [sizeAdjustmentOf, h1]
  · intro h1 h2; simp [sizeAdjustmentOf, h1, h2]
  · intro h1 h2 h3; simp [sizeAdjustmentOf, h1, h2, h3]
  · intro h1 h2 h3 h4; simp [sizeAdjustmentOf, h1, h2, h3, h4]
  · intro h1; simp [materialChangeOf, h1]
  · intro h1 h2; simp [materialChangeOf, h1, h2]
  · intro h1 h2 h3; simp [materialChangeOf, h1, h2, h3]
  · intro h1 h2 h3 h4; simp [materialChangeOf, h1, h2, h3, h4]
  · intro hb hw
    have hl : sizeLargerMatch (toLowerCps text) = true := by
      unfold sizeLargerMatch; simp [hb]
    have hs : sizeAdjustmentOf (toLowerCps text) = some .larger := by
      simp [sizeAdjustmentOf, hl]
    have hcond : ((sizeAdjustmentOf (toLowerCps text)).isSome ||
        (materialChangeOf (toLowerCps text)).isSome ||
        (functionalChangesOptOf (toLowerCps text)).isSome) = true := by
      simp [hs]
    refine ⟨⟨sizeAdjustmentOf (toLowerCps text), materialChangeOf (toLowerCps text),
      functionalChangesOptOf (toLowerCps text)⟩, ?_, by simp [hs]⟩
    simp [extractFeedbackParameters, hcond]

/-- Witness for C6 at a text containing both bigger and wider. -/
theorem extractParameters_first_match_witness :
    ∃ p, extractFeedbackParameters (str "bigger and wider") = some p ∧
      p.sizeAdjustment = some SizeAdjustment.larger :=
  (extractParameters_first_match (str "bigger and wider")).2.2.2.2.2.2.2.2.2
    (by decide) (by decide)

/-- C7: for every text containing, case-insensitively, none of the fixed
keyword sets, classify returns comment and extractParameters returns the
absent result. -/
theorem classify_comment_no_keywords (text : List Nat)
    (h1 : approvalMatch (toLowerCps text) = false)
    (h2 : refinementMatch (toLowerCps text) = false)
    (h3 : sizeMatch (toLowerCps text) = false)
    (h4 : matMatch (toLowerCps text) = false)
    (h5 : funcMatch (toLowerCps text) = false) :
    determineFeedbackType text = .comment ∧
    extractFeedbackParameters text = none := by
  constructor
  · simp [determineFeedbackType, h1, h2]
  · exact (extract_eq_none_iff text).mpr ⟨h3, h4, h5⟩

/-- Witness for C7 at a keyword-free text. -/
theorem classify_comment_no_keywords_witness :
    determineFeedbackType (str "so cool!") = .comment ∧
    extractFeedbackParameters (str "so cool!") = none :=
  classify_comment_no_keywords (str "so cool!") (by decide) (by decide)
    (by decide) (by decide) (by decide)

/-- C8: on the exact string Make it bigger and use flexible material,
extractParameters yields sizeAdjustment larger and materialChange TPU,
with no functionalChanges field. -/
theorem extractParameters_example :
    extractFeedbackParameters (str "Make it bigger and use flexible material") =
      some ⟨some SizeAdjustment.larger, some MaterialType.TPU, none⟩ := by
  decide

/-- C9: extractParameters is invariant under lowercasing its input: the
code lowercases the text before parameter extraction as well. -/
theorem extractParameters_lowercase_invariant (text : List Nat) :
    extractFeedbackParameters (toLowerCps text) = extractFeedbackParameters text := by
  simp only [extractFeedbackParameters, toLowerCps_idem]

/-- C10: in both printability analyzers the recommendations list is never
empty, and when the issues list is non-empty the recommendations are
exactly the issues mapped through the rule pairing, so both lists have the
same length and corresponding entries come from the same rule. -/
theorem recommendations_paired (a : ModelStats) (b : MeshData) :
    (analyzePrintability a).recommendations ≠ [] ∧
    ((analyzePrintability a).issues ≠ [] →
      (analyzePrintability a).recommendations =
        (analyzePrintability a).issues.map recFor) ∧
    (validateForPrinting b).recommendations ≠ [] ∧
    ((validateForPrinting b).issues ≠ [] →
      (validateForPrinting b).recommendations =
        (validateForPrinting b).issues.map recFor) :=
  ⟨(analyzePrintability_paired a).1, (analyzePrintability_paired a).2,
    (validateForPrinting_paired b).1, (validateForPrinting_paired b).2⟩

/-- Witness for C10 at an input with one triggered rule. -/
theorem recommendations_paired_witness :
    (validateForPrinting ⟨5000, 200, half⟩).recommendations =
      (validateForPrinting ⟨5000, 200, half⟩).issues.map recFor :=
  (recommendations_paired ⟨1, 1, 1⟩ ⟨5000, 200, half⟩).2.2.2 (by decide)
